import Mathlib

/-!
Verification of the Granola-Clone speech-to-text backend.

The definitions below are a shallow embedding of the backend's
per-connection session engine (`granola-clone-backend/ws/sttHandler.js`)
and of the WAV validation utility (`WAVValidator`).  Pure computations are
translated as Lean functions; the event-driven WebSocket handler is
translated as an explicit state machine on a `Session` record, with one
step function per callback.  JavaScript numbers are modelled as `Nat`/`Int`
where the code only does integer arithmetic, and as an extended-rational
type `JSVal` (finite / +inf / -inf / NaN) where IEEE division by zero can
occur.
-/

/-- Decidable equality on `Except`, used to evaluate fallible parsing
results on concrete inputs. -/
instance {ε α : Type} [DecidableEq ε] [DecidableEq α] :
    DecidableEq (Except ε α) := fun x y =>
  match x, y with
  | .ok a, .ok b =>
    if h : a = b then .isTrue (by subst h; rfl)
    else .isFalse (by intro hc; cases hc; exact h rfl)
  | .error a, .error b =>
    if h : a = b then .isTrue (by subst h; rfl)
    else .isFalse (by intro hc; cases hc; exact h rfl)
  | .ok _, .error _ => .isFalse (by intro hc; cases hc)
  | .error _, .ok _ => .isFalse (by intro hc; cases hc)

namespace Granola

/-! ## Configuration constants (CONFIG in sttHandler.js) -/

def MIN_FILE_SIZE : Nat := 1000
def MAX_FILE_SIZE : Nat := 50 * 1024 * 1024
def MIN_INTERVAL : Nat := 1000
def MAX_ERRORS : Nat := 5
def COOLDOWN_TIME : Nat := 30000
/-- Delay (ms) before a queued message is re-dispatched, from the
`setTimeout(..., 500)` in the queued-message dispatch. -/
def REDISPATCH_DELAY : Nat := 500

def MOCK_TRANSCRIPTS : List String :=
  [ "नमस्ते, आज का मीटिंग शुरू हो रहा है।"
  , "आज हमें प्रोजेक्ट के बारे में बात करनी है।"
  , "क्या सभी तैयार हैं?"
  , "धन्यवाद, मीटिंग समाप्त।" ]

/-! ## Messages and session state -/

/-- An inbound WebSocket message.  The session-engine guards only look at
its byte length; `payload` keeps the identity of the message so that
"the last one received" is expressible. -/
structure Msg where
  len : Nat
  payload : String
deriving DecidableEq, Repr

/-- Per-connection mutable state of the non-mock message handler:
`isProcessing`, `processingQueue`, `lastProcessTime`, `consecutiveErrors`. -/
structure Session where
  isProcessing : Bool
  processingQueue : List Msg
  lastProcessTime : Nat
  consecutiveErrors : Nat
deriving DecidableEq, Repr

/-- Initial state of a freshly connected client. -/
def initSession : Session :=
  { isProcessing := false
  , processingQueue := []
  , lastProcessTime := 0
  , consecutiveErrors := 0 }

/-- What the synchronous prefix of the `client.on("message")` handler does
with an arriving message, before any asynchronous work. -/
inductive ArrivalAction where
  /-- Handler returns without sending anything: empty message, rate
  limited, or below the minimum file size. -/
  | silentDrop
  /-- Message exceeds `MAX_FILE_SIZE`: an error is sent back, then return. -/
  | rejectTooLarge
  /-- `isProcessing` was true: the message replaces the queue contents. -/
  | queued
  /-- `consecutiveErrors >= MAX_ERRORS`: a service-unavailable error is
  sent and a cooldown-reset timer (`COOLDOWN_TIME`) is scheduled. -/
  | cooldownReject
  /-- All guards passed: processing of this message begins. -/
  | startProcessing
deriving DecidableEq, Repr

/-- Messages sent back to the client over the socket. -/
inductive Sent where
  /-- `{transcript, timestamp, processingTime}` success payload. -/
  | transcriptMsg (text : String)
  /-- `{transcript: "", message: "No speech detected in audio"}`. -/
  | emptyResult
  /-- `{error, technical}` or `{error}` payload. -/
  | errorMsg (text : String)
deriving DecidableEq, Repr

/-- The guard sequence of the message handler (sttHandler.js lines
325-394), in source order: empty-message check, rate limiting
(`currentTime - lastProcessTime < MIN_INTERVAL`), maximum size, minimum
size, queue management while processing, consecutive-error cooldown;
otherwise processing starts (`isProcessing := true`,
`lastProcessTime := currentTime`). -/
def onArrive (s : Session) (m : Msg) (now : Nat) : Session × ArrivalAction :=
  if m.len = 0 then
    (s, .silentDrop)
  else if now < s.lastProcessTime + MIN_INTERVAL then
    (s, .silentDrop)
  else if m.len > MAX_FILE_SIZE then
    (s, .rejectTooLarge)
  else if m.len < MIN_FILE_SIZE then
    (s, .silentDrop)
  else if s.isProcessing then
    ({ s with processingQueue := [m] }, .queued)
  else if s.consecutiveErrors ≥ MAX_ERRORS then
    (s, .cooldownReject)
  else
    ({ s with isProcessing := true, lastProcessTime := now }, .startProcessing)

/-- What the arrival step sends back on the socket, per action. -/
def sentOnArrival : ArrivalAction → List Sent
  | .rejectTooLarge => [.errorMsg "Audio file too large (max 50MB)"]
  | .cooldownReject => [.errorMsg "Service temporarily unavailable due to errors"]
  | _ => []

/-- JavaScript `String.prototype.trim()`: strip leading and trailing
whitespace (modelled structurally on the character list). -/
def jsTrim (s : String) : String :=
  ⟨((s.data.dropWhile Char.isWhitespace).reverse.dropWhile
      Char.isWhitespace).reverse⟩

/-- Outcome of the asynchronous transcription pipeline for one message:
either the `transcribeWAVFile` promise resolved with a transcript string,
or some stage (parsing, validation, transcription) threw. -/
inductive TranscribeOutcome where
  | success (transcript : String)
  | failure (errMsg : String)
deriving DecidableEq, Repr

/-- The continuation of the message handler after the pipeline finishes
(sttHandler.js lines 460-530): on a non-empty trimmed transcript, send it
and reset `consecutiveErrors` to 0; on an empty transcript, send the
empty-result payload (no counter change); on failure, increment
`consecutiveErrors` and send an error.  Then `isProcessing := false`, and
if the queue is non-empty its (sole) last element is popped, the queue is
cleared, and the popped message is scheduled for re-dispatch after
`REDISPATCH_DELAY` ms. -/
def onComplete (s : Session) (out : TranscribeOutcome) :
    Session × List Sent × Option (Msg × Nat) :=
  let (errs, sent) :=
    match out with
    | .success t =>
        if jsTrim t = "" then
          (s.consecutiveErrors, [Sent.emptyResult])
        else
          (0, [Sent.transcriptMsg (jsTrim t)])
    | .failure e =>
        (s.consecutiveErrors + 1, [Sent.errorMsg e])
  let scheduled : Option (Msg × Nat) :=
    match s.processingQueue.getLast? with
    | some q => some (q, REDISPATCH_DELAY)
    | none => none
  ({ s with isProcessing := false, processingQueue := [], consecutiveErrors := errs },
   sent, scheduled)

/-- The cooldown timer callback (`setTimeout` body at sttHandler.js lines
385-388): reset `consecutiveErrors` to 0. -/
def cooldownFire (s : Session) : Session :=
  { s with consecutiveErrors := 0 }

/-- Events a session can experience, for reachability of states. -/
inductive Event where
  /-- A message arrives on the socket (directly or re-dispatched from the
  queue) at absolute time `now`. -/
  | msg (m : Msg) (now : Nat)
  /-- The running pipeline finishes with the given outcome. -/
  | finish (out : TranscribeOutcome)
  /-- A previously scheduled cooldown timer fires. -/
  | cooldownElapsed
deriving Repr

/-- One step of the session engine.  A `finish` event can only occur while
a pipeline is running. -/
def step (s : Session) (e : Event) : Session :=
  match e with
  | .msg m now => (onArrive s m now).1
  | .finish out => if s.isProcessing then (onComplete s out).1 else s
  | .cooldownElapsed => cooldownFire s

/-- Run a session from the initial state through a list of events. -/
def run (events : List Event) : Session :=
  events.foldl step initSession

/-! ## JavaScript numeric values with IEEE special cases

`WAVValidator._calculateDuration` divides by a quantity that can be zero,
so its result can be `Infinity` or `NaN`.  All operands reaching that
division are exact integers or integers divided by 8, so apart from the
zero-divisor special cases the arithmetic is exact.  Finite values are
represented as explicit numerator/denominator pairs (`JSRat`, denominator
always constructed positive, no implicit normalisation); `JSRat.toRat`
gives their value in `ℚ`. -/

structure JSRat where
  num : Int
  den : Nat
deriving DecidableEq, Repr

/-- The rational value a `JSRat` denotes. -/
def JSRat.toRat (x : JSRat) : ℚ := (x.num : ℚ) / (x.den : ℚ)

inductive JSVal where
  | fin (x : JSRat)
  | posInf
  | negInf
  | nan
deriving DecidableEq, Repr

/-- JavaScript division `x / y` for exact finite operands: division by
zero yields `Infinity`/`-Infinity`/`NaN` by the sign of the dividend;
otherwise the exact quotient `(x.num * y.den) / (x.den * y.num)`, with
the divisor's sign moved to the numerator. -/
def jsDiv (x y : JSRat) : JSVal :=
  if y.num = 0 then
    if 0 < x.num then .posInf else if x.num < 0 then .negInf else .nan
  else
    .fin ⟨x.num * (y.den : Int) * Int.sign y.num, x.den * y.num.natAbs⟩

/-- JavaScript `Math.max(0, v)`: `NaN` propagates, `-Infinity` is clamped
to 0, negative finite values are clamped to 0. -/
def jsMax0 : JSVal → JSVal
  | .fin x => if x.num < 0 then .fin ⟨0, 1⟩ else .fin x
  | .posInf => .posInf
  | .negInf => .fin ⟨0, 1⟩
  | .nan => .nan

/-- JavaScript comparison `v > n` against a nonnegative integer: false on
`NaN` and `-Infinity`, true on `Infinity`; for a finite `x` with positive
denominator, `x.num / x.den > n ↔ n * x.den < x.num`. -/
def jsGtNat : JSVal → Nat → Bool
  | .fin x, n => decide ((n : Int) * (x.den : Int) < x.num)
  | .posInf, _ => true
  | .negInf, _ => false
  | .nan, _ => false

/-! ## WAV validator constants (WAV_VALIDATION_CONFIG in wavValidator.js) -/

def SARVAM_SAMPLE_RATE : Nat := 16000
def SARVAM_CHANNELS : Nat := 1
def SARVAM_BIT_DEPTH : Nat := 16
def MIN_HEADER_SIZE : Nat := 44
def MAX_DURATION : Nat := 600

def RIFF_SIGNATURE : List Nat := [82, 73, 70, 70]
def WAVE_SIGNATURE : List Nat := [87, 65, 86, 69]
def FMT_SIGNATURE : List Nat := [102, 109, 116, 32]

/-! ## Byte-level buffer reads (Node.js Buffer semantics) -/

/-- `buffer.readUInt16LE(off)`; `none` models the RangeError Node throws
when fewer than two bytes remain. -/
def readUInt16LE (b : List Nat) (off : Nat) : Option Nat :=
  if off + 2 ≤ b.length then
    some (b.getD off 0 + 256 * b.getD (off + 1) 0)
  else none

/-- `buffer.readUInt32LE(off)`; `none` models the RangeError Node throws
when fewer than four bytes remain. -/
def readUInt32LE (b : List Nat) (off : Nat) : Option Nat :=
  if off + 4 ≤ b.length then
    some (b.getD off 0 + 256 * b.getD (off + 1) 0 +
          65536 * b.getD (off + 2) 0 + 16777216 * b.getD (off + 3) 0)
  else none

/-- `buffer.subarray(off, off+4).equals(sig)`: `subarray` clamps to the
buffer end, and `equals` is false when the lengths differ. -/
def sliceEq (b : List Nat) (off : Nat) (sig : List Nat) : Bool :=
  (b.drop off).take 4 = sig

/-! ## WAVValidator._parseWAVHeader -/

/-- Parsed WAV format information (`_parseWAVHeader`'s return object). -/
structure HeaderInfo where
  fileSize : Nat
  audioFormat : Nat
  numChannels : Nat
  sampleRate : Nat
  byteRate : Nat
  blockAlign : Nat
  bitsPerSample : Nat
  fmtSize : Nat
  duration : JSVal
deriving DecidableEq, Repr

/-- `_calculateDuration(fileSize, sampleRate, channels, bitDepth)`:
`Math.max(0, (fileSize - 44) / (sampleRate * channels * (bitDepth/8)))`
under JavaScript division semantics.  `dataSize` is the exact integer
`fileSize - 44`; `bytesPerSecond` is the exact value
`sampleRate * channels * (bitDepth / 8) = (sampleRate*channels*bitDepth) / 8`. -/
def calculateDuration (fileSize sampleRate channels bitDepth : Nat) : JSVal :=
  let dataSize : JSRat := ⟨(fileSize : Int) - (MIN_HEADER_SIZE : Int), 1⟩
  let bytesPerSecond : JSRat := ⟨(sampleRate * channels * bitDepth : Nat), 8⟩
  jsMax0 (jsDiv dataSize bytesPerSecond)

/-- The `while` scan for the `fmt ` sub-chunk starting at offset 12; each
miss advances by `8 + declaredChunkSize`.  The advance is at least 8, so
`b.length + 1` units of fuel always suffice; exhausted fuel behaves like
loop exit (chunk not found). -/
def findFmt (b : List Nat) : Nat → Nat → Option (Nat × Nat)
  | _, 0 => none
  | fmtOffset, fuel + 1 =>
    if fmtOffset + 8 < b.length then
      match readUInt32LE b (fmtOffset + 4) with
      | none => none
      | some chunkSize =>
        if sliceEq b fmtOffset FMT_SIGNATURE then
          some (fmtOffset, chunkSize)
        else
          findFmt b (fmtOffset + 8 + chunkSize) fuel
    else none

/-- Body of the `try` block of `_parseWAVHeader`: signature checks, the
`fmt ` chunk scan, the sequence of little-endian field reads (any
out-of-range read throws), and assembly of the returned object.  The six
field reads all carry the same out-of-range error, so they are matched
jointly. -/
def parseWAVHeaderBody (b : List Nat) : Except String HeaderInfo :=
  if !sliceEq b 0 RIFF_SIGNATURE then
    .error "Invalid RIFF signature"
  else if !sliceEq b 8 WAVE_SIGNATURE then
    .error "Invalid WAVE signature"
  else
    match findFmt b 12 (b.length + 1) with
    | none => .error "fmt chunk not found"
    | some (fmtOffset, fmtSize) =>
      if fmtSize = 0 then
        .error "fmt chunk not found"
      else
        let fmtData := fmtOffset + 8
        match readUInt16LE b fmtData, readUInt16LE b (fmtData + 2),
              readUInt32LE b (fmtData + 4), readUInt32LE b (fmtData + 8),
              readUInt16LE b (fmtData + 12), readUInt16LE b (fmtData + 14),
              readUInt32LE b 4 with
        | some audioFormat, some numChannels, some sampleRate, some byteRate,
          some blockAlign, some bitsPerSample, some headerWord =>
            .ok { fileSize := headerWord + 8
                , audioFormat, numChannels, sampleRate, byteRate
                , blockAlign, bitsPerSample, fmtSize
                , duration :=
                    calculateDuration b.length sampleRate numChannels bitsPerSample }
        | _, _, _, _, _, _, _ => .error "offset out of range"

/-- `_parseWAVHeader(wavBuffer)`: minimum-header-size check, then the
`try` body with thrown errors re-wrapped. -/
def parseWAVHeader (b : List Nat) : Except String HeaderInfo :=
  if b.length < MIN_HEADER_SIZE then
    .error "WAV file too small to contain valid header"
  else
    match parseWAVHeaderBody b with
    | .ok h => .ok h
    | .error e => .error ("WAV header parsing failed: " ++ e)

/-! ## WAVValidator._validateWAVFormat -/

/-- The validator's strictness levels (`VALIDATION_LEVELS`). -/
inductive ValidationLevel where
  | basic
  | standard
  | strict
deriving DecidableEq, Repr

/-- One entry of the `errors`/`warnings` arrays, tagged by the check that
produced it and carrying the values the source interpolates into the
message string. -/
inductive Issue where
  | unsupportedAudioFormat (code : Nat)
  | sampleRateNotPreferred (rate : Nat)
  | channelsNotPreferred (n : Nat)
  | bitDepthNotPreferred (n : Nat)
  | audioTooLong (duration : JSVal)
  | byteRateMismatch (actual : Nat) (expected : JSRat)
deriving DecidableEq, Repr

/-- `_validateWAVFormat`'s return object. -/
structure ValidationResult where
  isValid : Bool
  errors : List Issue
  warnings : List Issue
  requiresFix : Bool
deriving DecidableEq, Repr

/-- `_validateWAVFormat(headerInfo)` for a validator constructed with the
given `validationLevel`.  Check order follows the source: audio format
(always an error when not PCM), sample rate / channel count / bit depth
(errors under `strict`, warnings otherwise), duration (always an error
when above `MAX_DURATION`), byte rate (always a warning when more than 1
off the expected value). -/
def validateWAVFormat (level : ValidationLevel) (h : HeaderInfo) : ValidationResult :=
  let fmtErrs : List Issue :=
    if h.audioFormat ≠ 1 then [.unsupportedAudioFormat h.audioFormat] else []
  let rateIssues : List Issue :=
    if h.sampleRate ≠ SARVAM_SAMPLE_RATE then [.sampleRateNotPreferred h.sampleRate] else []
  let chanIssues : List Issue :=
    if h.numChannels ≠ SARVAM_CHANNELS then [.channelsNotPreferred h.numChannels] else []
  let bitIssues : List Issue :=
    if h.bitsPerSample ≠ SARVAM_BIT_DEPTH then [.bitDepthNotPreferred h.bitsPerSample] else []
  let durErrs : List Issue :=
    if jsGtNat h.duration MAX_DURATION then [.audioTooLong h.duration] else []
  -- `expectedByteRate = sampleRate * numChannels * (bitsPerSample/8)`,
  -- the exact value `(sampleRate*numChannels*bitsPerSample) / 8`.
  let expectedByteRate : JSRat :=
    ⟨(h.sampleRate * h.numChannels * h.bitsPerSample : Nat), 8⟩
  -- `Math.abs(byteRate - expectedByteRate) > 1`, scaled by the positive
  -- factor 8: `|8*byteRate - sampleRate*numChannels*bitsPerSample| > 8`.
  let byteRateWarns : List Issue :=
    if 8 < (8 * (h.byteRate : Int) - (expectedByteRate.num : Int)).natAbs then
      [.byteRateMismatch h.byteRate expectedByteRate]
    else []
  let strictIssues := if level = .strict then rateIssues ++ chanIssues ++ bitIssues else []
  let lenientIssues := if level = .strict then [] else rateIssues ++ chanIssues ++ bitIssues
  let errors := fmtErrs ++ strictIssues ++ durErrs
  let warnings := lenientIssues ++ byteRateWarns
  let isValid := errors.isEmpty
  { isValid := isValid
  , errors := errors
  , warnings := warnings
  , requiresFix := !isValid || (level = .strict && !warnings.isEmpty) }

/-! ## WAVValidator.validateAndProcess -/

/-- Rendering of an issue, approximating the message strings the source
interpolates (used only to build thrown error text). -/
def issueDescr : Issue → String
  | .unsupportedAudioFormat code =>
      "Unsupported audio format: " ++ toString code ++ " (must be 1 for PCM)"
  | .sampleRateNotPreferred rate =>
      "Sample rate " ++ toString rate ++ "Hz not optimal (preferred: 16000Hz)"
  | .channelsNotPreferred n =>
      "Channel count " ++ toString n ++ " not optimal (preferred: 1)"
  | .bitDepthNotPreferred n =>
      "Bit depth " ++ toString n ++ " not optimal (preferred: 16)"
  | .audioTooLong _ => "Audio too long (max: 600s)"
  | .byteRateMismatch actual _ => "Byte rate mismatch: " ++ toString actual

/-- `_validateFileSize(wavBuffer)`: throws below `MIN_FILE_SIZE` or above
`MAX_FILE_SIZE`. -/
def validateFileSize (b : List Nat) : Except String Unit :=
  if b.length < MIN_FILE_SIZE then
    .error ("WAV file too small: " ++ toString b.length ++ " bytes (minimum: 1000)")
  else if b.length > MAX_FILE_SIZE then
    .error ("WAV file too large: " ++ toString b.length ++ " bytes (maximum: 52428800)")
  else
    .ok ()

/-- `validateAndProcess`'s return object, flattening the source's
`{isValid, processedBuffer, metadata}` (sans the wall-clock
`processingTime`).  `headerInfo` is the metadata spread of the *original*
parse, as in the source. -/
structure VProcessResult where
  isValid : Bool
  processedBuffer : List Nat
  wasProcessed : Bool
  originalSize : Nat
  finalSize : Nat
  headerInfo : HeaderInfo
deriving DecidableEq, Repr

/-- Body of the `try` block of `validateAndProcess`: size check, parse,
validate; on an invalid verdict with `autoFix` enabled, run the external
corrector (`_fixWAVFormat`, modelled as the oracle `fix` since it shells
out to FFmpeg), re-parse and re-validate, and fail permanently if still
invalid; on an invalid verdict with `autoFix` disabled, fail with the
joined error list; otherwise return with `isValid := true`. -/
def validateAndProcessBody (level : ValidationLevel) (autoFix : Bool)
    (fix : List Nat → Except String (List Nat)) (b : List Nat) :
    Except String VProcessResult :=
  match validateFileSize b with
  | .error e => .error e
  | .ok _ =>
    match parseWAVHeader b with
    | .error e => .error e
    | .ok headerInfo =>
      let vr := validateWAVFormat level headerInfo
      if !vr.isValid && autoFix then
        match fix b with
        | .error e => .error e
        | .ok fixed =>
          match parseWAVHeader fixed with
          | .error e => .error e
          | .ok newHeaderInfo =>
            if !(validateWAVFormat level newHeaderInfo).isValid then
              .error "WAV format could not be corrected automatically"
            else
              .ok { isValid := true
                  , processedBuffer := fixed
                  , wasProcessed := true
                  , originalSize := b.length
                  , finalSize := fixed.length
                  , headerInfo }
      else if !vr.isValid then
        .error ("WAV validation failed: " ++
          String.intercalate ", " (vr.errors.map issueDescr))
      else
        .ok { isValid := true
            , processedBuffer := b
            , wasProcessed := false
            , originalSize := b.length
            , finalSize := b.length
            , headerInfo }

/-- `validateAndProcess(wavBuffer)`: the `try` body with every thrown
error re-wrapped by the outer `catch`. -/
def validateAndProcess (level : ValidationLevel) (autoFix : Bool)
    (fix : List Nat → Except String (List Nat)) (b : List Nat) :
    Except String VProcessResult :=
  match validateAndProcessBody level autoFix fix b with
  | .ok r => .ok r
  | .error e => .error ("WAV validation failed: " ++ e)

/-! ## Transcription client error mapping (transcribeWAVFile) -/

/-- The literal `errorMessages` table keyed by HTTP status code in the
`response.on("end")` handler of `transcribeWAVFile`. -/
def errorMessageTable (status : Nat) : Option String :=
  if status = 400 then some "Invalid audio format or corrupted file"
  else if status = 401 then some "Invalid API key - check SARVAM_API_KEY"
  else if status = 403 then some "API access forbidden - check subscription status"
  else if status = 413 then some "Audio file too large for API"
  else if status = 429 then some "Rate limit exceeded - please try again in a moment"
  else if status = 500 then some "SarvamAI server error - please try again later"
  else if status = 503 then some "SarvamAI service temporarily unavailable"
  else none

/-- Message of the rejection produced for a non-200 HTTP status:
the table entry, or the generic
`API error <status>: <first 200 chars of body>` fallback. -/
def apiErrorMessage (status : Nat) (responseData : String) : String :=
  (errorMessageTable status).getD
    ("API error " ++ toString status ++ ": " ++ responseData.take 200)

/-- What the `response.on("end")` handler resolves or rejects with, given
the HTTP status and, for status 200, whether the parsed body had a string
`transcript` field (and its value).  Non-200 statuses always reject with
`apiErrorMessage`. -/
def handleResponseEnd (status : Nat) (transcriptField : Option String)
    (responseData : String) : Except String String :=
  if status = 200 then
    match transcriptField with
    | some t => .ok (jsTrim t)
    | none => .ok ""
  else
    .error (apiErrorMessage status responseData)

/-! ## Mock mode (the message handler installed when no API key is set) -/

/-- One message in mock mode: no guard of any kind runs; after a fixed
1500 ms `setTimeout` the canned phrase at `mockIndex % 4` is sent and
`mockIndex` is incremented. -/
def MOCK_DELAY : Nat := 1500

def mockRespond (mockIndex : Nat) : String × Nat :=
  (MOCK_TRANSCRIPTS.getD (mockIndex % MOCK_TRANSCRIPTS.length) "", mockIndex + 1)

/-- The transcripts sent for a list of inbound messages in mock mode,
starting from `mockIndex`.  Every message is answered, whatever its
content or size. -/
def mockRunFrom (mockIndex : Nat) : List Msg → List String
  | [] => []
  | _ :: rest =>
    let (t, next) := mockRespond mockIndex
    t :: mockRunFrom next rest

/-- A fresh mock-mode connection starts with `mockIndex = 0`. -/
def mockRun (msgs : List Msg) : List String :=
  mockRunFrom 0 msgs

/-! ## Concrete buffers used to instantiate theorems -/

/-- A 44-byte buffer with valid RIFF/WAVE/fmt structure, PCM format code,
one channel, 16 bits per sample, but sample rate 0: the header parser
accepts it. -/
def nanDurationBuf : List Nat :=
  [82, 73, 70, 70, 36, 0, 0, 0, 87, 65, 86, 69,
   102, 109, 116, 32, 16, 0, 0, 0,
   1, 0, 1, 0, 0, 0, 0, 0, 0, 0, 0, 0, 2, 0, 16, 0,
   100, 97, 116, 97, 0, 0, 0, 0]

/-- The header the parser extracts from `nanDurationBuf`; its duration is
`0 / 0 = NaN`. -/
def nanDurationHeader : HeaderInfo :=
  { fileSize := 44, audioFormat := 1, numChannels := 1, sampleRate := 0
  , byteRate := 0, blockAlign := 2, bitsPerSample := 16, fmtSize := 16
  , duration := .nan }

/-- A 1000-byte buffer in the SarvamAI-preferred format: PCM, mono,
16 kHz, 16-bit, byte rate 32000, followed by a 956-byte data chunk of
zeros. -/
def goodBuf : List Nat :=
  [82, 73, 70, 70, 224, 3, 0, 0, 87, 65, 86, 69,
   102, 109, 116, 32, 16, 0, 0, 0,
   1, 0, 1, 0, 128, 62, 0, 0, 0, 125, 0, 0, 2, 0, 16, 0,
   100, 97, 116, 97, 188, 3, 0, 0] ++ List.replicate 956 0

/-- The header the parser extracts from `goodBuf`; its duration is
`956 / 32000` seconds, computed as `(8 * 956) / (16000 * 1 * 16)`. -/
def goodHeaderInfo : HeaderInfo :=
  { fileSize := 1000, audioFormat := 1, numChannels := 1, sampleRate := 16000
  , byteRate := 32000, blockAlign := 2, bitsPerSample := 16, fmtSize := 16
  , duration := .fin ⟨7648, 256000⟩ }

/-- A header whose only departure from the SarvamAI-preferred profile is
a byte-rate field far from `sampleRate * numChannels * bitsPerSample/8`
(999 instead of 32000). -/
def byteRateOffHeader : HeaderInfo :=
  { fileSize := 1000, audioFormat := 1, numChannels := 1, sampleRate := 16000
  , byteRate := 999, blockAlign := 2, bitsPerSample := 16, fmtSize := 16
  , duration := .fin ⟨7648, 256000⟩ }

/-- The result `validateAndProcess` returns on `goodBuf` (no correction
needed). -/
def goodResult : VProcessResult :=
  { isValid := true, processedBuffer := goodBuf, wasProcessed := false
  , originalSize := 1000, finalSize := 1000, headerInfo := goodHeaderInfo }

/-- `true` iff the value is a finite number `≥ 0` (the denotation of a
"well-defined duration value `>= 0`"; all values constructed by the
validator have positive denominator, so the sign is that of `num`). -/
def isNonnegFinite : JSVal → Bool
  | .fin x => decide (0 ≤ x.num)
  | _ => false

/-! # Theorems -/

/-- **C7.** For every parsed FormatInfo whose audio format code is not 1
(PCM), `validate` reports `isValid = false` and an error, under every
strictness level — there is no strictness exception for the format-code
check. -/
theorem validate_nonPCM_always_invalid (level : ValidationLevel) (h : HeaderInfo)
    (hfmt : h.audioFormat ≠ 1) :
    (validateWAVFormat level h).isValid = false ∧
    Issue.unsupportedAudioFormat h.audioFormat ∈ (validateWAVFormat level h).errors := by
  unfold validateWAVFormat
  simp [hfmt]

/-- Witness for C7: a concrete non-PCM header (format code 3) is rejected
at a concrete strictness level. -/
theorem validate_nonPCM_always_invalid_witness :
    (validateWAVFormat .standard
      { nanDurationHeader with audioFormat := 3 }).isValid = false :=
  (validate_nonPCM_always_invalid .standard
    { nanDurationHeader with audioFormat := 3 } (by decide)).1

/-- Every `ok` result of the `try` body of `validateAndProcess` carries
`isValid := true`. -/
theorem validateAndProcessBody_ok_isValid (level : ValidationLevel) (autoFix : Bool)
    (fix : List Nat → Except String (List Nat)) (b : List Nat)
    (r : VProcessResult) (hr : validateAndProcessBody level autoFix fix b = .ok r) :
    r.isValid = true := by
  unfold validateAndProcessBody at hr
  cases h1 : validateFileSize b with
  | error e => simp [h1] at hr
  | ok u =>
    simp only [h1] at hr
    cases h2 : parseWAVHeader b with
    | error e => simp [h2] at hr
    | ok hi =>
      simp only [h2] at hr
      by_cases h3 : (!(validateWAVFormat level hi).isValid && autoFix) = true
      · simp only [h3, if_true] at hr
        cases h4 : fix b with
        | error e => simp [h4] at hr
        | ok fixed =>
          simp only [h4] at hr
          cases h5 : parseWAVHeader fixed with
          | error e => simp [h5] at hr
          | ok nhi =>
            simp only [h5] at hr
            by_cases h6 : (!(validateWAVFormat level nhi).isValid) = true
            · simp [h6] at hr
            · simp only [h6, if_false, Bool.false_eq_true] at hr
              cases hr
              rfl
      · simp only [h3, if_false, Bool.false_eq_true] at hr
        by_cases h7 : (!(validateWAVFormat level hi).isValid) = true
        · simp [h7] at hr
        · simp only [h7, if_false, Bool.false_eq_true] at hr
          cases hr
          rfl

/-- **C10.** Whenever `validateAndProcess` returns normally (does not
throw), the `isValid` field of its result is `true`: every failing buffer
surfaces as a thrown error, never as a returned verdict with
`isValid = false`. -/
theorem validateAndProcess_ok_isValid (level : ValidationLevel) (autoFix : Bool)
    (fix : List Nat → Except String (List Nat)) (b : List Nat)
    (r : VProcessResult) (hr : validateAndProcess level autoFix fix b = .ok r) :
    r.isValid = true := by
  unfold validateAndProcess at hr
  split at hr
  · next heq =>
      cases hr
      exact validateAndProcessBody_ok_isValid level autoFix fix b _ heq
  · cases hr

set_option maxRecDepth 40000 in
/-- Witness for C10: a concrete, fully conformant 1000-byte buffer on
which `validateAndProcess` returns normally, with `isValid = true`. -/
theorem validateAndProcess_ok_isValid_witness :
    validateAndProcess .standard true (fun _ => .error "engine unavailable")
      goodBuf = .ok goodResult ∧ goodResult.isValid = true :=
  have hEq : validateAndProcess .standard true (fun _ => .error "engine unavailable")
      goodBuf = .ok goodResult := by decide
  ⟨hEq, validateAndProcess_ok_isValid .standard true _ goodBuf goodResult hEq⟩

set_option maxRecDepth 4000 in
/-- **C5 counterexample.** The claim maps every 5xx status to an
upstream-unavailable rejection, but HTTP 502 rejects with the generic
`API error 502: ...` message — not the message the code uses for 500 nor
the one it uses for 503 (the only upstream-unavailability messages in the
table). -/
theorem transcribe_error_mapping_counterexample :
    handleResponseEnd 502 none "Bad Gateway" =
      .error ("API error " ++ toString 502 ++ ": " ++ "Bad Gateway") ∧
    apiErrorMessage 502 "Bad Gateway" ≠ apiErrorMessage 500 "Bad Gateway" ∧
    apiErrorMessage 502 "Bad Gateway" ≠ apiErrorMessage 503 "Bad Gateway" := by
  decide

/-- **C5 (amended).** Every non-200 status rejects with the mapped
message: 400, 401, 403, 413, 429 as the claim states; 500 and 503 map to
the two upstream-unavailable messages; every other status — including the
other 5xx codes — maps to the generic `API error <status>: <body prefix>`
message. -/
theorem transcribe_error_mapping (status : Nat) (tf : Option String) (body : String) :
    (status ≠ 200 → handleResponseEnd status tf body = .error (apiErrorMessage status body)) ∧
    apiErrorMessage 400 body = "Invalid audio format or corrupted file" ∧
    apiErrorMessage 401 body = "Invalid API key - check SARVAM_API_KEY" ∧
    apiErrorMessage 403 body = "API access forbidden - check subscription status" ∧
    apiErrorMessage 413 body = "Audio file too large for API" ∧
    apiErrorMessage 429 body = "Rate limit exceeded - please try again in a moment" ∧
    apiErrorMessage 500 body = "SarvamAI server error - please try again later" ∧
    apiErrorMessage 503 body = "SarvamAI service temporarily unavailable" ∧
    (status ∉ [400, 401, 403, 413, 429, 500, 503] →
      apiErrorMessage status body =
        "API error " ++ toString status ++ ": " ++ body.take 200) := by
  refine ⟨fun hs => ?_, ?_, ?_, ?_, ?_, ?_, ?_, ?_, fun hs => ?_⟩
  · simp [handleResponseEnd, hs]
  all_goals simp_all [apiErrorMessage, errorMessageTable]

/-- Witness for C5 (amended): concrete instantiation at status 418 (no
table entry) showing the generic rejection. -/
theorem transcribe_error_mapping_witness :
    handleResponseEnd 418 none "teapot" = .error (apiErrorMessage 418 "teapot") ∧
    apiErrorMessage 418 "teapot" =
      "API error " ++ toString 418 ++ ": " ++ String.take "teapot" 200 :=
  ⟨(transcribe_error_mapping 418 none "teapot").1 (by decide),
   (transcribe_error_mapping 418 none "teapot").2.2.2.2.2.2.2.2 (by decide)⟩

/-- **C6 counterexample.** Under `strict` validation, a header matching
the preferred profile except for a byte rate of 999 (expected 32000)
still validates with `isValid = true` and no errors: the mismatch lands
in `warnings` even under strict validation, so it is not fatal there,
contrary to the claim. -/
theorem byte_rate_strict_counterexample :
    (validateWAVFormat .strict byteRateOffHeader).isValid = true ∧
    (validateWAVFormat .strict byteRateOffHeader).errors = [] ∧
    (validateWAVFormat .strict byteRateOffHeader).warnings =
      [Issue.byteRateMismatch 999 ⟨256000, 8⟩] := by
  decide

/-- **C6 (amended).** A byte rate differing from
`sampleRate * channelCount * bitsPerSample/8` by more than 1 produces a
warning at *every* validation level and never contributes an error (so it
never affects the verdict); a difference of at most 1 is tolerated
entirely; under strict validation the only effect of warnings is to force
`requiresFix`. -/
theorem byte_rate_mismatch_warning (level : ValidationLevel) (h : HeaderInfo) :
    (∀ a e, Issue.byteRateMismatch a e ∉ (validateWAVFormat level h).errors) ∧
    (8 < (8 * (h.byteRate : Int) -
        ((h.sampleRate * h.numChannels * h.bitsPerSample : Nat) : Int)).natAbs →
      Issue.byteRateMismatch h.byteRate
          ⟨((h.sampleRate * h.numChannels * h.bitsPerSample : Nat) : Int), 8⟩ ∈
        (validateWAVFormat level h).warnings) ∧
    ((8 * (h.byteRate : Int) -
        ((h.sampleRate * h.numChannels * h.bitsPerSample : Nat) : Int)).natAbs ≤ 8 →
      ∀ a e, Issue.byteRateMismatch a e ∉ (validateWAVFormat level h).warnings) ∧
    (level = .strict → (validateWAVFormat level h).warnings ≠ [] →
      (validateWAVFormat level h).requiresFix = true) := by
  simp only [validateWAVFormat]
  refine ⟨?_, ?_, ?_, ?_⟩
  · intro a e
    split_ifs <;> simp_all
  · intro hgt
    split_ifs <;> simp_all
  · intro hle a e
    split_ifs <;> (try (exfalso; omega)) <;> simp_all
  · intro hlv hw
    subst hlv
    simp_all

/-- Witness for C6 (amended): at strict level on `byteRateOffHeader`, the
mismatch really lands in the warnings and forces `requiresFix`. -/
theorem byte_rate_mismatch_warning_witness :
    Issue.byteRateMismatch 999 ⟨256000, 8⟩ ∈
      (validateWAVFormat .strict byteRateOffHeader).warnings ∧
    (validateWAVFormat .strict byteRateOffHeader).requiresFix = true :=
  ⟨(byte_rate_mismatch_warning .strict byteRateOffHeader).2.1 (by decide),
   (byte_rate_mismatch_warning .strict byteRateOffHeader).2.2.2 rfl (by decide)⟩

/-- When the divisor `sampleRate * channels * bitDepth` is nonzero,
`_calculateDuration` yields the finite clamped quotient of the claim's
formula, and it is nonnegative. -/
theorem calculateDuration_characterization (len rate ch bits : Nat)
    (hnz : rate * ch * bits ≠ 0) :
    ∃ x : JSRat, calculateDuration len rate ch bits = .fin x ∧ 0 ≤ x.toRat ∧
      x.toRat = max 0 (((len : ℚ) - 44) /
        ((rate : ℚ) * (ch : ℚ) * ((bits : ℚ) / 8))) := by
  have hp : 0 < rate * ch * bits := Nat.pos_of_ne_zero hnz
  have hpz : ((rate * ch * bits : Nat) : Int) ≠ 0 := by exact_mod_cast hnz
  have hsign : Int.sign ((rate * ch * bits : Nat) : Int) = 1 := by
    apply Int.sign_eq_one_of_pos
    exact_mod_cast hp
  have hQ : ((rate : ℚ) * (ch : ℚ) * ((bits : ℚ) / 8)) =
      ((rate * ch * bits : Nat) : ℚ) / 8 := by
    push_cast
    ring
  have hQz : ((rate * ch * bits : Nat) : ℚ) ≠ 0 := by exact_mod_cast hnz
  have hDpos : (0 : ℚ) < ((rate * ch * bits : Nat) : ℚ) / 8 := by
    have h8 : (0 : ℚ) < ((rate * ch * bits : Nat) : ℚ) := by exact_mod_cast hp
    linarith
  simp only [calculateDuration, jsDiv, MIN_HEADER_SIZE]
  rw [if_neg hpz, hsign]
  simp only [jsMax0, mul_one, one_mul, Int.natAbs_ofNat]
  split
  · next hneg =>
    have hlen : (len : ℚ) < 44 := by
      have h44 : (len : Int) < 44 := by push_cast at hneg; omega
      exact_mod_cast h44
    refine ⟨⟨0, 1⟩, rfl, ?_, ?_⟩
    · simp [JSRat.toRat]
    · rw [hQ]
      have hnum : ((len : ℚ) - 44) ≤ 0 := by linarith
      have hq : ((len : ℚ) - 44) / (((rate * ch * bits : Nat) : ℚ) / 8) ≤ 0 :=
        div_nonpos_of_nonpos_of_nonneg hnum (le_of_lt hDpos)
      rw [max_eq_left hq]
      simp [JSRat.toRat]
  · next hpos =>
    have hlen : (44 : Int) ≤ (len : Int) := by push_cast at hpos; omega
    refine ⟨_, rfl, ?_, ?_⟩
    · apply div_nonneg
      · have hn : (0 : Int) ≤ ((len : Int) - (44 : Nat)) * ((8 : Nat) : Int) := by
          push_cast
          omega
        exact_mod_cast hn
      · positivity
    · rw [hQ]
      have hnum : (0 : ℚ) ≤ ((len : ℚ) - 44) := by
        have h44 : (44 : ℚ) ≤ (len : ℚ) := by exact_mod_cast hlen
        linarith
      rw [max_eq_right (div_nonneg hnum (le_of_lt hDpos))]
      unfold JSRat.toRat
      field_simp

/-- A header returned by the `try` body of `_parseWAVHeader` carries
exactly the duration `_calculateDuration(bufferLength, sampleRate,
numChannels, bitsPerSample)`. -/
theorem parseWAVHeaderBody_duration_eq (b : List Nat) (hh : HeaderInfo)
    (hb : parseWAVHeaderBody b = .ok hh) :
    hh.duration =
      calculateDuration b.length hh.sampleRate hh.numChannels hh.bitsPerSample := by
  unfold parseWAVHeaderBody at hb
  by_cases hs1 : (!sliceEq b 0 RIFF_SIGNATURE) = true
  · simp only [hs1, if_true] at hb
    cases hb
  · simp only [hs1, Bool.false_eq_true, if_false] at hb
    by_cases hs2 : (!sliceEq b 8 WAVE_SIGNATURE) = true
    · simp only [hs2, if_true] at hb
      cases hb
    · simp only [hs2, Bool.false_eq_true, if_false] at hb
      cases hf : findFmt b 12 (b.length + 1) with
      | none => simp only [hf] at hb; cases hb
      | some p =>
        obtain ⟨fmtOffset, fmtSize⟩ := p
        simp only [hf] at hb
        by_cases hz : fmtSize = 0
        · simp only [hz, if_true] at hb
          simp at hb
        · rw [if_neg hz] at hb
          cases hA : readUInt16LE b (fmtOffset + 8) with
          | none => simp only [hA] at hb; cases hb
          | some audioFormat =>
            simp only [hA] at hb
            cases hB : readUInt16LE b (fmtOffset + 8 + 2) with
            | none => simp only [hB] at hb; cases hb
            | some numChannels =>
              simp only [hB] at hb
              cases hC : readUInt32LE b (fmtOffset + 8 + 4) with
              | none => simp only [hC] at hb; cases hb
              | some sampleRate =>
                simp only [hC] at hb
                cases hD : readUInt32LE b (fmtOffset + 8 + 8) with
                | none => simp only [hD] at hb; cases hb
                | some byteRate =>
                  simp only [hD] at hb
                  cases hE : readUInt16LE b (fmtOffset + 8 + 12) with
                  | none => simp only [hE] at hb; cases hb
                  | some blockAlign =>
                    simp only [hE] at hb
                    cases hF : readUInt16LE b (fmtOffset + 8 + 14) with
                    | none => simp only [hF] at hb; cases hb
                    | some bitsPerSample =>
                      simp only [hF] at hb
                      cases hG : readUInt32LE b 4 with
                      | none => simp only [hG] at hb; cases hb
                      | some headerWord =>
                        simp only [hG] at hb
                        cases hb
                        rfl

/-- A header returned by `_parseWAVHeader` carries exactly the duration
`_calculateDuration(bufferLength, sampleRate, numChannels, bitsPerSample)`. -/
theorem parseWAVHeader_duration_eq (b : List Nat) (hh : HeaderInfo)
    (hp : parseWAVHeader b = .ok hh) :
    hh.duration =
      calculateDuration b.length hh.sampleRate hh.numChannels hh.bitsPerSample := by
  unfold parseWAVHeader at hp
  by_cases hlen : b.length < MIN_HEADER_SIZE
  · rw [if_pos hlen] at hp
    cases hp
  · rw [if_neg hlen] at hp
    cases hb : parseWAVHeaderBody b with
    | error e => rw [hb] at hp; cases hp
    | ok h2 =>
      rw [hb] at hp
      cases hp
      exact parseWAVHeaderBody_duration_eq b _ hb

/-- **C8 (amended).** For every buffer the header parser accepts, the
returned duration is `_calculateDuration(bufferLength, sampleRate,
channels, bitsPerSample)`; whenever `sampleRate * channels *
bitsPerSample ≠ 0` this is the finite value
`max 0 ((bufferLength - 44) / (sampleRate * channels * bitsPerSample/8))`,
which is `≥ 0`.  (When the product is zero, the division yields `NaN` or
`Infinity` instead of a well-defined nonnegative number — see the
counterexample.) -/
theorem parsed_duration (b : List Nat) (hh : HeaderInfo)
    (hp : parseWAVHeader b = .ok hh) :
    hh.duration =
      calculateDuration b.length hh.sampleRate hh.numChannels hh.bitsPerSample ∧
    (hh.sampleRate * hh.numChannels * hh.bitsPerSample ≠ 0 →
      ∃ x : JSRat, hh.duration = .fin x ∧ 0 ≤ x.toRat ∧
        x.toRat = max 0 (((b.length : ℚ) - 44) /
          ((hh.sampleRate : ℚ) * (hh.numChannels : ℚ) *
            ((hh.bitsPerSample : ℚ) / 8)))) := by
  have hdur := parseWAVHeader_duration_eq b hh hp
  refine ⟨hdur, fun hnz => ?_⟩
  rw [hdur]
  exact calculateDuration_characterization b.length hh.sampleRate hh.numChannels
    hh.bitsPerSample hnz

/-- **C8 counterexample.** The parser accepts a 44-byte buffer with
sample rate 0; the duration it returns is `0 / 0 = NaN`, which is not a
well-defined value `≥ 0`. -/
theorem parsed_duration_counterexample :
    parseWAVHeader nanDurationBuf = .ok nanDurationHeader ∧
    nanDurationHeader.duration = .nan ∧
    isNonnegFinite nanDurationHeader.duration = false := by
  decide

set_option maxRecDepth 40000 in
/-- Witness for C8 (amended): the parser accepts `goodBuf` and the
duration relation holds there. -/
theorem parsed_duration_witness :
    parseWAVHeader goodBuf = .ok goodHeaderInfo ∧
    goodHeaderInfo.duration =
      calculateDuration goodBuf.length goodHeaderInfo.sampleRate
        goodHeaderInfo.numChannels goodHeaderInfo.bitsPerSample :=
  have hp : parseWAVHeader goodBuf = .ok goodHeaderInfo := by decide
  ⟨hp, (parsed_duration goodBuf goodHeaderInfo hp).1⟩

/-- **C1 counterexample.** A cycle that completes successfully with an
empty transcript (a successful empty result per the spec) emits the
empty-result message but does *not* reset `consecutiveErrors` to 0:
starting from 3 consecutive errors, the counter is still 3 afterwards. -/
theorem success_empty_no_reset_counterexample :
    (onComplete ⟨true, [], 5000, 3⟩ (.success "")).1.consecutiveErrors = 3 ∧
    (onComplete ⟨true, [], 5000, 3⟩ (.success "")).2.1 = [Sent.emptyResult] := by
  decide

/-- **C1 (amended).** Every successfully completing processing cycle
emits exactly one result message (never an error message) back on the
same connection and clears `isProcessing`; `consecutiveErrors` is reset
to 0 exactly when the trimmed transcript is non-empty, and is left
unchanged (in particular not incremented) when the transcript is empty. -/
theorem success_cycle_result (s : Session) (t : String) :
    (∀ e, Sent.errorMsg e ∉ (onComplete s (.success t)).2.1) ∧
    (onComplete s (.success t)).2.1.length = 1 ∧
    (onComplete s (.success t)).1.isProcessing = false ∧
    (jsTrim t ≠ "" →
      (onComplete s (.success t)).2.1 = [Sent.transcriptMsg (jsTrim t)] ∧
      (onComplete s (.success t)).1.consecutiveErrors = 0) ∧
    (jsTrim t = "" →
      (onComplete s (.success t)).2.1 = [Sent.emptyResult] ∧
      (onComplete s (.success t)).1.consecutiveErrors = s.consecutiveErrors) := by
  by_cases ht : jsTrim t = "" <;>
    simp [onComplete, ht]

/-- Witness for C1 (amended): a concrete non-empty-transcript cycle
resets the counter and sends the transcript. -/
theorem success_cycle_result_witness :
    (onComplete ⟨true, [], 5000, 3⟩ (.success "hello")).2.1 =
      [Sent.transcriptMsg (jsTrim "hello")] ∧
    (onComplete ⟨true, [], 5000, 3⟩ (.success "hello")).1.consecutiveErrors = 0 :=
  (success_cycle_result ⟨true, [], 5000, 3⟩ "hello").2.2.2.1 (by decide)

/-- A message that passes the empty, rate-limit and size guards reaches
the queue/cooldown/processing decision point of the handler. -/
theorem onArrive_guarded (s : Session) (m : Msg) (now : Nat)
    (hrate : s.lastProcessTime + MIN_INTERVAL ≤ now)
    (hmin : MIN_FILE_SIZE ≤ m.len)
    (hmax : m.len ≤ MAX_FILE_SIZE) :
    onArrive s m now =
      (if s.isProcessing then ({ s with processingQueue := [m] }, .queued)
        else if s.consecutiveErrors ≥ MAX_ERRORS then (s, .cooldownReject)
        else ({ s with isProcessing := true, lastProcessTime := now },
          .startProcessing)) := by
  unfold onArrive
  simp only [MIN_FILE_SIZE, MIN_INTERVAL, MAX_FILE_SIZE] at hrate hmin hmax ⊢
  rw [if_neg (by omega), if_neg (by omega), if_neg (by omega), if_neg (by omega)]

/-- **C2.** Once `consecutiveErrors` has reached `MAX_ERRORS = 5`, a
message reaching the processing decision point (non-empty, not rate
limited, within both size bounds, session idle) is rejected immediately
with the service-unavailable error and processing never starts for it
(the Transcription Client is invoked only on `startProcessing`); the
cooldown lasts `COOLDOWN_TIME = 30000` ms, its firing resets the counter
to 0, and afterwards a message passing the same guards starts processing
normally. -/
theorem cooldown_rejection_and_recovery (s : Session) (m : Msg) (now : Nat)
    (hrate : s.lastProcessTime + MIN_INTERVAL ≤ now)
    (hmin : MIN_FILE_SIZE ≤ m.len)
    (hmax : m.len ≤ MAX_FILE_SIZE)
    (hproc : s.isProcessing = false)
    (herr : MAX_ERRORS ≤ s.consecutiveErrors) :
    onArrive s m now = (s, .cooldownReject) ∧
    sentOnArrival (onArrive s m now).2 =
      [Sent.errorMsg "Service temporarily unavailable due to errors"] ∧
    (onArrive s m now).2 ≠ .startProcessing ∧
    COOLDOWN_TIME = 30000 ∧
    (cooldownFire s).consecutiveErrors = 0 ∧
    (∀ (m2 : Msg) (now2 : Nat), MIN_FILE_SIZE ≤ m2.len → m2.len ≤ MAX_FILE_SIZE →
      (cooldownFire s).lastProcessTime + MIN_INTERVAL ≤ now2 →
      onArrive (cooldownFire s) m2 now2 =
        ({ cooldownFire s with isProcessing := true, lastProcessTime := now2 },
          .startProcessing)) := by
  have harr : onArrive s m now = (s, .cooldownReject) := by
    rw [onArrive_guarded s m now hrate hmin hmax,
        if_neg (by simp [hproc]), if_pos herr]
  refine ⟨harr, by rw [harr]; simp [sentOnArrival], by rw [harr]; simp, rfl, rfl, ?_⟩
  intro m2 now2 hmin2 hmax2 hrate2
  rw [onArrive_guarded (cooldownFire s) m2 now2 hrate2 hmin2 hmax2,
      if_neg (by simp [cooldownFire, hproc]),
      if_neg (by simp [cooldownFire, MAX_ERRORS])]

/-- Witness for C2: a concrete idle session with 5 consecutive errors
rejects a well-formed message, and processes it after the timer fires. -/
theorem cooldown_rejection_and_recovery_witness :
    onArrive ⟨false, [], 0, 5⟩ ⟨2000, "x"⟩ 1000 = (⟨false, [], 0, 5⟩, .cooldownReject) ∧
    onArrive (cooldownFire ⟨false, [], 0, 5⟩) ⟨2000, "x"⟩ 1000 =
      ({ cooldownFire ⟨false, [], 0, 5⟩ with
          isProcessing := true, lastProcessTime := 1000 }, .startProcessing) :=
  ⟨(cooldown_rejection_and_recovery ⟨false, [], 0, 5⟩ ⟨2000, "x"⟩ 1000
      (by decide) (by decide) (by decide) rfl (by decide)).1,
   (cooldown_rejection_and_recovery ⟨false, [], 0, 5⟩ ⟨2000, "x"⟩ 1000
      (by decide) (by decide) (by decide) rfl (by decide)).2.2.2.2.2
     ⟨2000, "x"⟩ 1000 (by decide) (by decide) (by decide)⟩

/-- Each step of the session engine keeps the queue depth at most 1. -/
theorem step_queue_len_le_one (s : Session) (e : Event)
    (hs : s.processingQueue.length ≤ 1) :
    (step s e).processingQueue.length ≤ 1 := by
  cases e with
  | msg m now =>
    simp only [step, onArrive]
    split_ifs <;> simp [hs]
  | finish out =>
    simp only [step]
    split_ifs
    · simp [onComplete]
    · exact hs
  | cooldownElapsed => simpa [step, cooldownFire] using hs

/-- **C3 counterexample.** A message arriving while the session is
Processing, 300 ms after processing began, is dropped by the rate limiter
— it does not replace anything in the queue, which stays empty; so one
message arriving during a processing cycle can leave zero (not exactly
one) queued follow-ups. -/
theorem queue_replace_counterexample :
    (step initSession (.msg ⟨2000, "m1"⟩ 5000)).isProcessing = true ∧
    onArrive (step initSession (.msg ⟨2000, "m1"⟩ 5000)) ⟨2000, "m2"⟩ 5300 =
      (step initSession (.msg ⟨2000, "m1"⟩ 5000), .silentDrop) ∧
    (onArrive (step initSession (.msg ⟨2000, "m1"⟩ 5000)) ⟨2000, "m2"⟩
        5300).1.processingQueue = [] := by
  decide

/-- **C3 (amended).** In every reachable state the queue holds at most
one message; every message that passes the rate-limit and size guards
while the session is Processing replaces the previously queued message
(latest-wins, whatever was queued before); when processing ends with a
queued message, exactly that message is scheduled after the 500 ms
re-dispatch delay and the queue is cleared.  (Messages arriving while
Processing that are rate-limited or out of size bounds are dropped
instead of queued — see the counterexample.) -/
theorem queue_depth_invariant :
    (∀ events : List Event, (run events).processingQueue.length ≤ 1) ∧
    (∀ (s : Session) (m : Msg) (now : Nat),
      s.isProcessing = true →
      s.lastProcessTime + MIN_INTERVAL ≤ now →
      MIN_FILE_SIZE ≤ m.len → m.len ≤ MAX_FILE_SIZE →
      onArrive s m now = ({ s with processingQueue := [m] }, .queued)) ∧
    (∀ (s : Session) (out : TranscribeOutcome) (q : Msg),
      s.processingQueue = [q] →
      (onComplete s out).2.2 = some (q, REDISPATCH_DELAY) ∧
      (onComplete s out).1.processingQueue = [] ∧
      REDISPATCH_DELAY = 500) := by
  refine ⟨?_, ?_, ?_⟩
  · intro events
    have aux : ∀ (l : List Event) (s : Session), s.processingQueue.length ≤ 1 →
        (l.foldl step s).processingQueue.length ≤ 1 := by
      intro l
      induction l with
      | nil => intro s hs; exact hs
      | cons e rest ih =>
        intro s hs
        exact ih (step s e) (step_queue_len_le_one s e hs)
    exact aux events initSession (by simp [initSession])
  · intro s m now hproc hrate hmin hmax
    rw [onArrive_guarded s m now hrate hmin hmax, if_pos hproc]
  · intro s out q hq
    refine ⟨?_, ?_, rfl⟩ <;> simp [onComplete, hq]

/-- Witness for C3 (amended): a concrete queued message is replaced
latest-wins, and on completion the queued message is scheduled after the
re-dispatch delay. -/
theorem queue_depth_invariant_witness :
    onArrive ⟨true, [⟨1500, "old"⟩], 0, 0⟩ ⟨2000, "new"⟩ 1000 =
      ({ isProcessing := true, processingQueue := [⟨2000, "new"⟩]
        , lastProcessTime := 0, consecutiveErrors := 0 }, .queued) ∧
    (onComplete ⟨true, [⟨2000, "new"⟩], 0, 0⟩ (.failure "err")).2.2 =
      some (⟨2000, "new"⟩, REDISPATCH_DELAY) :=
  ⟨queue_depth_invariant.2.1 ⟨true, [⟨1500, "old"⟩], 0, 0⟩ ⟨2000, "new"⟩ 1000
      rfl (by decide) (by decide) (by decide),
   (queue_depth_invariant.2.2 ⟨true, [⟨2000, "new"⟩], 0, 0⟩ (.failure "err")
      ⟨2000, "new"⟩ rfl).1⟩

/-- Any message arriving within `MIN_INTERVAL` of the last processing
start is silently dropped with the state unchanged. -/
theorem onArrive_rate_limited (s : Session) (m : Msg) (now : Nat)
    (h : now < s.lastProcessTime + MIN_INTERVAL) :
    onArrive s m now = (s, .silentDrop) := by
  unfold onArrive
  by_cases h0 : m.len = 0
  · rw [if_pos h0]
  · rw [if_neg h0, if_pos h]

/-- When the arrival step starts processing, the new state records the
arrival time as `lastProcessTime` and sets `isProcessing`. -/
theorem onArrive_startProcessing_state (s : Session) (m : Msg) (now : Nat)
    (h : (onArrive s m now).2 = .startProcessing) :
    (onArrive s m now).1 = { s with isProcessing := true, lastProcessTime := now } := by
  unfold onArrive at h ⊢
  split_ifs at h ⊢
  simp_all

/-- **C4.** Every message received less than `MIN_INTERVAL = 1000` ms
after the last message began processing is silently dropped: nothing is
sent back, the state is unchanged, and processing does not start;
consequently, once a message starts processing at time `t1`, any message
arriving at `t2 < t1 + 1000` is dropped, so two messages within the
minimum interval yield exactly one processed message. -/
theorem rate_limited_silent_drop (s : Session) (m : Msg) (now : Nat)
    (h : now < s.lastProcessTime + MIN_INTERVAL) :
    onArrive s m now = (s, .silentDrop) ∧
    sentOnArrival (onArrive s m now).2 = [] ∧
    (onArrive s m now).2 ≠ .startProcessing ∧
    (∀ (s0 : Session) (m1 : Msg) (t1 : Nat) (m2 : Msg) (t2 : Nat),
      (onArrive s0 m1 t1).2 = .startProcessing →
      t2 < t1 + MIN_INTERVAL →
      onArrive (onArrive s0 m1 t1).1 m2 t2 = ((onArrive s0 m1 t1).1, .silentDrop)) := by
  have hdrop := onArrive_rate_limited s m now h
  refine ⟨hdrop, by rw [hdrop]; simp [sentOnArrival], by rw [hdrop]; simp, ?_⟩
  intro s0 m1 t1 m2 t2 hstart ht2
  apply onArrive_rate_limited
  rw [onArrive_startProcessing_state s0 m1 t1 hstart]
  exact ht2

/-- Witness for C4: a concrete message 500 ms after processing began is
dropped with nothing sent, and a concrete two-message run processes
exactly the first one. -/
theorem rate_limited_silent_drop_witness :
    onArrive ⟨false, [], 5000, 0⟩ ⟨2000, "x"⟩ 5500 = (⟨false, [], 5000, 0⟩, .silentDrop) ∧
    onArrive (onArrive initSession ⟨2000, "m1"⟩ 5000).1 ⟨2000, "m2"⟩ 5900 =
      ((onArrive initSession ⟨2000, "m1"⟩ 5000).1, .silentDrop) :=
  ⟨(rate_limited_silent_drop ⟨false, [], 5000, 0⟩ ⟨2000, "x"⟩ 5500 (by decide)).1,
   (rate_limited_silent_drop ⟨false, [], 5000, 0⟩ ⟨2000, "x"⟩ 5500 (by decide)).2.2.2
     initSession ⟨2000, "m1"⟩ 5000 ⟨2000, "m2"⟩ 5900 (by decide) (by decide)⟩

/-- Mock mode answers every message: one transcript per message. -/
theorem mockRunFrom_length (msgs : List Msg) :
    ∀ i, (mockRunFrom i msgs).length = msgs.length := by
  induction msgs with
  | nil => intro i; rfl
  | cons m rest ih =>
    intro i
    simp [mockRunFrom, mockRespond, ih]

/-- Mock mode never looks at message bytes: runs over equally long
message lists coincide. -/
theorem mockRunFrom_content_free (msgs : List Msg) :
    ∀ (msgs2 : List Msg) (i : Nat),
      msgs.length = msgs2.length → mockRunFrom i msgs = mockRunFrom i msgs2 := by
  induction msgs with
  | nil =>
    intro msgs2 i h
    cases msgs2 with
    | nil => rfl
    | cons m2 rest2 => simp at h
  | cons m rest ih =>
    intro msgs2 i h
    cases msgs2 with
    | nil => simp at h
    | cons m2 rest2 =>
      simp only [mockRunFrom, mockRespond]
      exact congrArg _ (ih rest2 (i + 1) (by simpa using h))

/-- The transcript sent for the `n`-th message when the mock counter
started at `i` is phrase `(i + n) % 4`. -/
theorem mockRunFrom_getD (msgs : List Msg) :
    ∀ (i n : Nat), n < msgs.length →
      (mockRunFrom i msgs).getD n "" = MOCK_TRANSCRIPTS.getD ((i + n) % 4) "" := by
  have hL : MOCK_TRANSCRIPTS.length = 4 := rfl
  induction msgs with
  | nil => intro i n hn; simp at hn
  | cons m rest ih =>
    intro i n hn
    cases n with
    | zero => simp [mockRunFrom, mockRespond, hL]
    | succ k =>
      have hk : k < rest.length := by simpa using hn
      calc (mockRunFrom i (m :: rest)).getD (k + 1) ""
          = (mockRunFrom (i + 1) rest).getD k "" := by
            simp [mockRunFrom, mockRespond]
        _ = MOCK_TRANSCRIPTS.getD ((i + 1 + k) % 4) "" := ih (i + 1) k hk
        _ = MOCK_TRANSCRIPTS.getD ((i + (k + 1)) % 4) "" := by
            congr 1
            omega

/-- The four canned phrases are pairwise distinct. -/
theorem mock_transcripts_pairwise_distinct :
    ∀ a b : Fin 4, a ≠ b →
      MOCK_TRANSCRIPTS.getD a.val "" ≠ MOCK_TRANSCRIPTS.getD b.val "" := by
  decide

/-- **C9.** In mock mode every received message — of any size and
content, with no size check, rate limiting, cooldown or format
validation — is answered after the fixed 1500 ms delay with a canned
transcript; the `n`-th message (0-indexed) of a connection gets phrase
`n % 4` of the fixed 4-phrase list, so two successive messages yield two
different phrases in round-robin order; the handler depends only on the
count of messages received, never on their bytes, and never produces an
error (a transcript is emitted for every message). -/
theorem mock_mode_round_robin (msgs : List Msg) (n : Nat) :
    (mockRun msgs).length = msgs.length ∧
    MOCK_DELAY = 1500 ∧
    (∀ msgs2 : List Msg, msgs.length = msgs2.length → mockRun msgs = mockRun msgs2) ∧
    (n < msgs.length →
      (mockRun msgs).getD n "" = MOCK_TRANSCRIPTS.getD (n % 4) "") ∧
    (n + 1 < msgs.length →
      (mockRun msgs).getD n "" ≠ (mockRun msgs).getD (n + 1) "") := by
  refine ⟨mockRunFrom_length msgs 0, rfl,
    fun msgs2 h => mockRunFrom_content_free msgs msgs2 0 h, fun hn => ?_, fun hn1 => ?_⟩
  · have h1 := mockRunFrom_getD msgs 0 n hn
    simpa [mockRun] using h1
  · have h1 := mockRunFrom_getD msgs 0 n (by omega)
    have h2 := mockRunFrom_getD msgs 0 (n + 1) hn1
    simp only [mockRun]
    rw [h1, h2]
    have hne : ((0 + n) % 4 : Nat) ≠ (0 + (n + 1)) % 4 := by omega
    exact mock_transcripts_pairwise_distinct
      ⟨(0 + n) % 4, by omega⟩ ⟨(0 + (n + 1)) % 4, by omega⟩
      (by simpa [Fin.ext_iff] using hne)

/-- Witness for C9: a concrete run with an empty message and an
oversized message still answers both, with the first two phrases. -/
theorem mock_mode_round_robin_witness :
    (mockRun [⟨0, "a"⟩, ⟨60000000, "b"⟩]).length = 2 ∧
    (mockRun [⟨0, "a"⟩, ⟨60000000, "b"⟩]).getD 0 "" = MOCK_TRANSCRIPTS.getD 0 "" ∧
    (mockRun [⟨0, "a"⟩, ⟨60000000, "b"⟩]).getD 0 "" ≠
      (mockRun [⟨0, "a"⟩, ⟨60000000, "b"⟩]).getD 1 "" :=
  ⟨(mock_mode_round_robin [⟨0, "a"⟩, ⟨60000000, "b"⟩] 0).1,
   (mock_mode_round_robin [⟨0, "a"⟩, ⟨60000000, "b"⟩] 0).2.2.2.1 (by decide),
   (mock_mode_round_robin [⟨0, "a"⟩, ⟨60000000, "b"⟩] 0).2.2.2.2 (by decide)⟩

end Granola
